import Mathlib

/-!
Verification of the wheel-size scraper (src/main.py) against its design
specification.

The development shallowly embeds the pure core of the program:

* string helpers mirroring the Python primitives the code relies on
  (str.strip, str.split, str.lower, str.replace, "in", int(), float(),
  re patterns used by the code);
* an `Html` tree modelling the BeautifulSoup document objects, with the
  bs4 operations the code uses (find / find_all with tag-and-class
  filters, get_text, decompose, str(), attribute access), including
  bs4 truthiness: a Tag is falsy when it has no contents (Tag.__len__),
  a string is falsy when empty, None is falsy;
* the Normalizer (get_clean_text, get_staggered_data, format_number),
  the Extractor (parse_vehicle_data) returning `Except` so that the
  Python exception paths are explicit, the detection check
  (check_for_detection), the retry/backoff loop of scrape_vehicle_page
  as a function of an environment giving each attempt's outcome, and
  the per-task worker flow of process_make_year.

Modelling conventions, noted where they matter:
* Python floats are modelled by the exact rational value of the decimal
  literal (a numerator/denominator pair); this matches float semantics
  for every value whose binary rounding preserves the integral /
  non-integral classification, which covers all realistic inputs here.
* Unicode-only niceties of Python (unicode digits in int(), unicode
  whitespace, underscores in numeric literals) are not modelled; the
  ASCII behaviour is.
* Serialization (str() of a tag) escapes `&`, `<`, `>` in text, so a
  literal `<br` can only come from an actual br element; the regex
  `<br\s*/?>` split of str(target) is therefore represented as a
  tree-level split at the first attribute-free br element, with the
  left part keeping its ancestor wrappers and the right part flattened,
  exactly as html.parser reparses the two string fragments.
-/

/-! ### Python string primitives, over `List Char` so that the kernel
can evaluate them on concrete inputs. -/

/-- Whitespace recognised by Python str.strip / str.split (ASCII part). -/
def pyWs (c : Char) : Bool :=
  c == ' ' || c == '\t' || c == '\n' || c == '\r' || c == '\x0b' || c == '\x0c'

/-- Python str.strip on a character list. -/
def pystrip (l : List Char) : List Char :=
  ((l.dropWhile pyWs).reverse.dropWhile pyWs).reverse

/-- Splits a character list into maximal whitespace-free words (Python str.split()). -/
def wordsAux : List Char → List Char → List (List Char)
  | [], cur => if cur.isEmpty then [] else [cur.reverse]
  | c :: rest, cur =>
    if pyWs c then
      if cur.isEmpty then wordsAux rest [] else cur.reverse :: wordsAux rest []
    else wordsAux rest (c :: cur)

/-- Joins words with single spaces. -/
def joinWords : List (List Char) → List Char
  | [] => []
  | [w] => w
  | w :: ws => w ++ ' ' :: joinWords ws

/-- Models the idiom `' '.join(s.split())` used throughout the source. -/
def collapseWs (s : String) : String := ⟨joinWords (wordsAux s.data [])⟩

/-- Python str.lower (ASCII behaviour). -/
def pyLower (s : String) : String := ⟨s.data.map Char.toLower⟩

/-- Helper for `strContains`. -/
def strContainsAux (needle : List Char) : List Char → Bool
  | [] => needle.isEmpty
  | c :: t => needle.isPrefixOf (c :: t) || strContainsAux needle t

/-- Python `needle in hay` on strings. -/
def strContains (hay needle : String) : Bool := strContainsAux needle.data hay.data

/-- Fuelled replace worker; fuel bounds the number of consumed characters. -/
def replaceAux (needle repl : List Char) : Nat → List Char → List Char
  | _, [] => []
  | 0, l => l
  | fuel + 1, c :: t =>
    if !needle.isEmpty && needle.isPrefixOf (c :: t) then
      repl ++ replaceAux needle repl fuel ((c :: t).drop needle.length)
    else c :: replaceAux needle repl fuel t

/-- Python str.replace (all non-overlapping occurrences, left to right). -/
def pyReplace (s needle repl : String) : String :=
  ⟨replaceAux needle.data repl.data s.data.length s.data⟩

/-- Python str.startswith. -/
def strStarts (s p : String) : Bool := p.data.isPrefixOf s.data

/-- Value of a decimal digit list (most significant first). -/
def digitsToNat : List Char → Nat → Nat
  | [], acc => acc
  | c :: t, acc => digitsToNat t (acc * 10 + (c.toNat - 48))

/-- Decimal digits of a natural number; the fuel `n + 1` always suffices. -/
def natDigitsAux : Nat → Nat → List Char
  | 0, _ => []
  | fuel + 1, n =>
    if n < 10 then [Char.ofNat (48 + n)]
    else natDigitsAux fuel (n / 10) ++ [Char.ofNat (48 + n % 10)]

/-- Decimal rendering of a natural number (Python str(n) for n >= 0). -/
def natStr (n : Nat) : String := ⟨natDigitsAux (n + 1) n⟩

/-- Decimal rendering of an integer (Python str(i)). -/
def intStr : Int → String
  | .ofNat n => natStr n
  | .negSucc n => "-" ++ natStr (n + 1)

/-- Nonempty all-digit parse. -/
def pyIntDigits (ds : List Char) : Option Nat :=
  if ds.isEmpty || !ds.all Char.isDigit then none else some (digitsToNat ds 0)

/-- Signed decimal integer parse, no surrounding whitespace. -/
def pyIntCore : List Char → Option Int
  | '+' :: ds => (pyIntDigits ds).map Int.ofNat
  | '-' :: ds => (pyIntDigits ds).map (fun n => -(Int.ofNat n))
  | ds => (pyIntDigits ds).map Int.ofNat

/-- Python int(s) on a string: optional whitespace, optional sign, decimal digits. -/
def pyIntOfString (s : String) : Option Int := pyIntCore (pystrip s.data)

/-- Splits off a leading run of decimal digits. -/
def takeDigits (l : List Char) : List Char × List Char :=
  (l.takeWhile Char.isDigit, l.dropWhile Char.isDigit)

/-- Core of Python float(s): sign, digits, optional fraction, optional exponent.
The value is returned exactly, as numerator and (positive) denominator; see the
header note on float semantics. inf/nan spellings are not modelled: on them the
only consumer, format_number, behaves as on a parse failure either way. -/
def pyFloatCore (l : List Char) : Option (Int × Nat) :=
  let signed : Bool × List Char :=
    match l with
    | '+' :: r => (false, r)
    | '-' :: r => (true, r)
    | r => (false, r)
  let ipRest := takeDigits signed.2
  let fpRest : List Char × List Char :=
    match ipRest.2 with
    | '.' :: r => takeDigits r
    | r => ([], r)
  if ipRest.1.isEmpty && fpRest.1.isEmpty then none
  else
    let mant : Nat := digitsToNat (ipRest.1 ++ fpRest.1) 0
    let fden : Nat := 10 ^ fpRest.1.length
    let expo : Option Int :=
      match fpRest.2 with
      | [] => some 0
      | 'e' :: r => pyIntCore r
      | 'E' :: r => pyIntCore r
      | _ => none
    match expo with
    | none => none
    | some e =>
      let sm : Int := if signed.1 then -(Int.ofNat mant) else Int.ofNat mant
      if e ≥ 0 then some (sm * Int.ofNat (10 ^ e.toNat), fden)
      else some (sm, fden * 10 ^ (-e).toNat)

/-- Python float(s) with the surrounding-whitespace allowance. -/
def pyFloatOfString (s : String) : Option (Int × Nat) := pyFloatCore (pystrip s.data)

/-! ### The HTML document model (BeautifulSoup objects as a tree). -/

/-- A parsed markup node: an element with tag name, attributes and children,
or a text node. The multi-valued class attribute is stored as the plain
attribute string and split on whitespace on access, as html.parser does. -/
inductive Html where
  | text (s : String)
  | elem (tag : String) (attrs : List (String × String)) (children : List Html)

/-- Attribute access, Tag.get(key): first binding wins. -/
def Html.attr : Html → String → Option String
  | .text _, _ => none
  | .elem _ attrs _, k => (attrs.find? (fun a => a.1 == k)).map (fun a => a.2)

/-- The class list of a node (Tag.get('class', []) with html.parser's
whitespace splitting). -/
def Html.classList (h : Html) : List String :=
  match h.attr "class" with
  | none => []
  | some s => (wordsAux s.data []).map (fun w => (⟨w⟩ : String))

/-- Membership of one class in the node's class list. -/
def hasClass (h : Html) (c : String) : Bool := h.classList.contains c

/-- Tag-name test; text nodes have no name. -/
def isTag (h : Html) (tg : String) : Bool :=
  match h with
  | .text _ => false
  | .elem t _ _ => t == tg

/-- Python truthiness of a bs4 node: a NavigableString is falsy iff empty,
a Tag is falsy iff it has no contents (Tag.__len__). -/
def truthy : Html → Bool
  | .text s => !s.data.isEmpty
  | .elem _ _ cs => !cs.isEmpty

/-- Python truthiness of a find() result (None is falsy). -/
def optTruthy : Option Html → Bool
  | none => false
  | some h => truthy h

/-- Children of a node. -/
def childrenList : Html → List Html
  | .text _ => []
  | .elem _ _ cs => cs

mutual
/-- All nodes of a forest matching `p`, document (pre-)order. -/
def findAllList (p : Html → Bool) : List Html → List Html
  | [] => []
  | h :: t => (if p h then [h] else []) ++ findAllWithin p h ++ findAllList p t

/-- All strict descendants of a node matching `p`, document order. -/
def findAllWithin (p : Html → Bool) : Html → List Html
  | .text _ => []
  | .elem _ _ cs => findAllList p cs
end

/-- Tag.find_all(pred): all strict descendants matching, in document order. -/
def Html.findAll (h : Html) (p : Html → Bool) : List Html := findAllWithin p h

/-- Tag.find(pred): the first strict descendant matching, or None. -/
def Html.findFirst (h : Html) (p : Html → Bool) : Option Html := (h.findAll p).head?

mutual
/-- Removes every node matching `p` from a forest (decompose of all
find_all matches; removing an outer match subsumes its inner ones, and the
predicates used are local to a node, so a single top-down pass is exact). -/
def removeAllList (p : Html → Bool) : List Html → List Html
  | [] => []
  | h :: t => if p h then removeAllList p t else removeAllNode p h :: removeAllList p t

/-- Removes every descendant matching `p` below one node. -/
def removeAllNode (p : Html → Bool) : Html → Html
  | .text s => .text s
  | .elem tg a cs => .elem tg a (removeAllList p cs)
end

mutual
/-- Removes the first node matching `p` from a forest, document order;
`none` when there is no match. -/
def removeFirstList (p : Html → Bool) : List Html → Option (List Html)
  | [] => none
  | h :: t =>
    if p h then some t
    else
      match removeFirstNode p h with
      | some h2 => some (h2 :: t)
      | none => (removeFirstList p t).map (fun t2 => h :: t2)

/-- Removes the first strict descendant matching `p` inside one node. -/
def removeFirstNode (p : Html → Bool) : Html → Option Html
  | .text _ => none
  | .elem tg a cs => (removeFirstList p cs).map (fun cs2 => Html.elem tg a cs2)
end

mutual
/-- Tag.get_text(strip=True): every string stripped, concatenated. -/
def stripConcat : Html → String
  | .text s => ⟨pystrip s.data⟩
  | .elem _ _ cs => stripConcatList cs

/-- get_text(strip=True) over a forest. -/
def stripConcatList : List Html → String
  | [] => ""
  | h :: t => stripConcat h ++ stripConcatList t
end

mutual
/-- Tag.text (no stripping): all strings concatenated as-is. -/
def rawText : Html → String
  | .text s => s
  | .elem _ _ cs => rawTextList cs

/-- Tag.text over a forest. -/
def rawTextList : List Html → String
  | [] => ""
  | h :: t => rawText h ++ rawTextList t
end

/-- Markup escaping of text content (bs4 minimal formatter). -/
def escapeText (s : String) : String :=
  pyReplace (pyReplace (pyReplace s "&" "&amp;") "<" "&lt;") ">" "&gt;"

/-- Void elements relevant to the scraped pages: serialized self-closed,
children never serialized. -/
def voidTag (t : String) : Bool := t == "br" || t == "img"

/-- Attribute rendering for serialization. -/
def attrsString : List (String × String) → String
  | [] => ""
  | (k, v) :: rest => " " ++ k ++ "=\"" ++ escapeText v ++ "\"" ++ attrsString rest

mutual
/-- str(tag): the serialized markup of a node. -/
def serialize : Html → String
  | .text s => escapeText s
  | .elem tg a cs =>
    if voidTag tg then "<" ++ tg ++ attrsString a ++ "/>"
    else "<" ++ tg ++ attrsString a ++ ">" ++ serializeList cs ++ "</" ++ tg ++ ">"

/-- str() over a forest. -/
def serializeList : List Html → String
  | [] => ""
  | h :: t => serialize h ++ serializeList t
end

/-- An attribute-free br element: exactly the nodes whose serialization the
source's line-break regex `<br\s*/?>` matches. -/
def isPlainBr : Html → Bool
  | .elem "br" [] _ => true
  | _ => false

mutual
/-- Tree-level rendering of `re.split(r'<br\s*/?>', str(target), maxsplit=1)`
followed by reparsing the two fragments: splits a forest at the first plain
br in document order. The left part keeps the ancestor wrappers of the
content before the br (html.parser auto-closes their open tags), the right
part is the flattened content after it (the stray close tags are dropped).
`none` when no plain br occurs, i.e. when the regex split yields one part. -/
def splitBrList : List Html → Option (List Html × List Html)
  | [] => none
  | h :: t =>
    if isPlainBr h then some ([], t)
    else
      match splitBrNode h with
      | some pr => some ([pr.1], pr.2 ++ t)
      | none => (splitBrList t).map (fun pr => (h :: pr.1, pr.2))

/-- Splits inside one node; `some (left-node, right-forest)` when a plain br
occurs among its descendants (not inside a void element, whose children are
never serialized). -/
def splitBrNode : Html → Option (Html × List Html)
  | .text _ => none
  | .elem tg a cs =>
    if voidTag tg then none
    else (splitBrList cs).map (fun pr => (Html.elem tg a pr.1, pr.2))
end

/-! ### The Normalizer (src/main.py lines 264-297). -/

/-- Decorative classes stripped by get_clean_text. -/
def decorClass (h : Html) : Bool :=
  hasClass h "badge" || hasClass h "tire_load_index" || hasClass h "d-block" || hasClass h "fa-li"

/-- The nodes get_clean_text decomposes: i / img / span elements carrying one
of the decorative classes. -/
def decorMatch (h : Html) : Bool :=
  (isTag h "i" || isTag h "img" || isTag h "span") && decorClass h

/-- Cleaned text of a reparsed soup: decorative nodes decomposed, then
get_text(strip=True), then whitespace collapsed by `' '.join(text.split())`. -/
def cleanNodes (roots : List Html) : String :=
  collapseWs (stripConcatList (removeAllList decorMatch roots))

/-- Models get_clean_text (lines 273-279) on a Tag-or-None argument: a falsy
input (None, or an empty tag, by bs4 Tag.__len__ truthiness) yields None;
otherwise the node is reparsed (identity on the tree), decorative
sub-elements are decomposed, and the text is flattened. -/
def get_clean_text : Option Html → Option String
  | none => none
  | some el => if truthy el then some (cleanNodes [el]) else none

/-- Models get_clean_text applied to the soup `BeautifulSoup(str(element))`
whose top-level contents are `roots` (the decomposed copy in
get_staggered_data): the soup is falsy exactly when it has no contents. -/
def cleanSoup (roots : List Html) : Option String :=
  if roots.isEmpty then none else some (cleanNodes roots)

/-- Models format_number (lines 265-271): None passes through; a string that
float() rejects passes through; an integral value is re-rendered as
str(int(f)); anything else passes through. -/
def format_number : Option String → Option String
  | none => none
  | some s =>
    match pyFloatOfString s with
    | none => some s
    | some nd =>
      if nd.1 % (Int.ofNat nd.2) = 0 then some (intStr (nd.1 / Int.ofNat nd.2)) else some s

/-- span.imperial filter (find('span', class_='imperial') and the positional
find('span', 'imperial'), which bs4 also matches against the class). -/
def isImperialSpan (h : Html) : Bool := isTag h "span" && hasClass h "imperial"

/-- span.rear-tire-data filter. -/
def isRearSpan (h : Html) : Bool := isTag h "span" && hasClass h "rear-tire-data"

/-- The imperial narrowing of get_staggered_data (lines 283-285): the target
is the first imperial span when the hint is set and that find is truthy. -/
def narrowTarget (cell : Html) (is_imperial : Bool) : Html :=
  if is_imperial && optTruthy (cell.findFirst isImperialSpan) then
    (cell.findFirst isImperialSpan).getD cell
  else cell

/-- Rebuilds the target element around the left fragment of a br split (the
reparse of `parts[0]`, whose unclosed open tag html.parser auto-closes). -/
def reattachChildren (target : Html) (l : List Html) : Html :=
  match target with
  | .text s => .text s
  | .elem tg a _ => .elem tg a l

/-- The line-break tier of get_staggered_data (lines 293-297): split
str(target) on the first `<br\s*/?>`; on exactly two parts clean each
(each part is a nonempty string, hence truthy, so get_clean_text cannot
return None here); otherwise duplicate clean_text(target). -/
def lineBreakSplit (target : Html) : Option String × Option String :=
  match splitBrList (childrenList target) with
  | some pr => (some (cleanNodes [reattachChildren target pr.1]), some (cleanNodes pr.2))
  | none => (get_clean_text (some target), get_clean_text (some target))

/-- Models get_staggered_data (lines 281-297), the source's staggered-cell
parser: imperial narrowing, then the truthy rear-tire-data branch (the rear
span cleaned as rear, the soup copy with the first rear span decomposed
cleaned as front), else the line-break split. -/
def get_staggered_data (cell : Html) (is_imperial : Bool) : Option String × Option String :=
  let target := narrowTarget cell is_imperial
  if optTruthy (target.findFirst isRearSpan) then
    (cleanSoup ((removeFirstList isRearSpan [target]).getD [target]),
     get_clean_text (target.findFirst isRearSpan))
  else lineBreakSplit target

/-- Modelled from the spec wording of split_staggered (§4.1): narrow to the
imperial sub-fragment when hinted; if a distinguished rear sub-fragment
exists inside the target, extract it as rear, remove it, the remainder is
front; otherwise split on the first line-break marker of the raw fragment
(two parts become front/rear); otherwise duplicate clean_text(target). -/
def split_staggered (cell : Html) (imperial_hint : Bool) : Option String × Option String :=
  match (narrowTarget cell imperial_hint).findFirst isRearSpan with
  | some rs =>
    if truthy rs then
      (cleanSoup ((removeFirstList isRearSpan [narrowTarget cell imperial_hint]).getD
          [narrowTarget cell imperial_hint]),
       get_clean_text (some rs))
    else lineBreakSplit (narrowTarget cell imperial_hint)
  | none => lineBreakSplit (narrowTarget cell imperial_hint)

/-! ### The detection check (src/main.py lines 231-262). -/

/-- The fixed set of bot-challenge phrase markers of check_for_detection. -/
def detection_indicators : List String :=
  ["access denied", "blocked", "captcha", "security check", "suspicious activity",
   "automated requests", "bot detected", "rate limit", "too many requests",
   "cloudflare", "please verify you are human"]

/-- Models check_for_detection (lines 231-262) on the rendered page content
and the post-navigation URL. The translation keeps the source's control flow
verbatim: the indicator loop returns False on a hit, the URL check returns
False on a hit, and the fall-through returns False. -/
def check_for_detection (content : String) (url : String) : Bool :=
  let content_lower := pyLower content
  if detection_indicators.any (fun ind => strContains content_lower ind) then false
  else if strContains url "challenge" || strContains url "verify" || strContains url "captcha" then
    false
  else false

/-! ### The Extractor data model (spec §3, source lines 299-348). -/

/-- One table row of fitment options, the six staggered (front, rear) pairs
plus the two booleans; all pair components are optional strings, as produced
by get_clean_text. -/
structure TireRow where
  original_equipment : Bool
  recommended_for_winter : Bool
  front_size : Option String
  rear_size : Option String
  front_rim : Option String
  rear_rim : Option String
  front_offset : Option String
  rear_offset : Option String
  front_backspacing : Option String
  rear_backspacing : Option String
  front_tire_weight : Option String
  rear_tire_weight : Option String
  front_max_psi : Option String
  rear_max_psi : Option String
deriving DecidableEq

/-- One vehicle trim's record, mirroring the trim_info dict of
parse_vehicle_data field by field; `wheel_fasterns` is the source's literal
(misspelled) dict key for the wheel-fasteners value. An `Option` field is
`none` exactly when the dict key is never assigned (every assigned
descriptive value is a string; `engine` and `make`/`model` can be assigned
None, and those keys are always present). -/
structure TrimRecord where
  html_output : String
  make : Option String
  model : Option String
  year : Int
  engine : Option String
  hp : Option Nat
  generation : Option String
  production : Option String
  centerbore : Option String
  bolt_pattern : Option String
  wheel_fasterns : Option String
  thread_size : Option String
  wheel_tightening_torque : Option String
  tires : List TireRow
deriving DecidableEq

/-- Helper for `recordKeys`: a key that is present iff the field was assigned. -/
def optKey (k : String) : Option String → List String
  | none => []
  | some _ => [k]

/-- The set of keys of the JSON object json.dump writes for one trim_info
dict (as a list; the insertion order of the optional keys in the file
follows the page's item order, which the set view abstracts). -/
def recordKeys (r : TrimRecord) : List String :=
  ["html_output", "make", "model", "year", "tires", "engine"]
    ++ (match r.hp with
        | none => []
        | some _ => ["hp"])
    ++ optKey "wheel_tightening_torque" r.wheel_tightening_torque
    ++ optKey "generation" r.generation
    ++ optKey "production" r.production
    ++ optKey "centerbore" r.centerbore
    ++ optKey "bolt_pattern" r.bolt_pattern
    ++ optKey "wheel_fasterns" r.wheel_fasterns
    ++ optKey "thread_size" r.thread_size

/-! ### The Extractor (parse_vehicle_data, lines 299-348). -/

/-- h1#title-header filter (line 302). -/
def isTitleH1 (h : Html) : Bool := isTag h "h1" && h.attr "id" == some "title-header"

/-- div.trims-list filter (line 305). -/
def isTrimsListDiv (h : Html) : Bool := isTag h "div" && hasClass h "trims-list"

/-- The panel filter of line 308: div.panel with a nonempty id starting with
"trim-" (the id lambda `x and x.startswith('trim-')`). -/
def isTrimPanel (h : Html) : Bool :=
  isTag h "div" && hasClass h "panel" &&
    (match h.attr "id" with
     | none => false
     | some s => !s.data.isEmpty && strStarts s "trim-")

/-- div.panel-hdr filter (line 311). -/
def isPanelHdr (h : Html) : Bool := isTag h "div" && hasClass h "panel-hdr"

/-- span.panel-hdr-trim-name filter (line 312). -/
def isTrimNameSpan (h : Html) : Bool := isTag h "span" && hasClass h "panel-hdr-trim-name"

/-- The power-span lambda of line 314: a span whose Tag.text contains "hp"
(bs4 only feeds Tags to the function; text nodes fail the name test). -/
def powerSpanPred (h : Html) : Bool := strContains (rawText h) "hp" && isTag h "span"

/-- li.element-parameter filter (line 317). -/
def isParamItem (h : Html) : Bool := isTag h "li" && hasClass h "element-parameter"

/-- span.parameter-name filter (line 318). -/
def isParamNameSpan (h : Html) : Bool := isTag h "span" && hasClass h "parameter-name"

/-- table.table-ws filter (line 334). -/
def isWsTable (h : Html) : Bool := isTag h "table" && hasClass h "table-ws"

/-- tbody filter (line 335). -/
def isTbody (h : Html) : Bool := isTag h "tbody"

/-- tr filter (line 336). -/
def isTr (h : Html) : Bool := isTag h "tr"

/-- td filter (line 337). -/
def isTd (h : Html) : Bool := isTag h "td"

/-- i.fa-snowflake filter (line 339). -/
def isSnowflakeIcon (h : Html) : Bool := isTag h "i" && hasClass h "fa-snowflake"

/-- Leftmost match of the pattern `(\d+)\s*hp` (re.search of line 315): at
the first position where a maximal digit run, optional whitespace and the
literal "hp" line up, the digit run's value. Backtracking inside a digit run
cannot help (\s cannot match a digit), so maximal-run-then-literal is exact. -/
def hpFrom : List Char → Option Nat
  | [] => none
  | c :: rest =>
    if c.isDigit then
      let ds := (c :: rest).takeWhile Char.isDigit
      let after := ((c :: rest).dropWhile Char.isDigit).dropWhile pyWs
      if ['h', 'p'].isPrefixOf after then some (digitsToNat ds 0)
      else hpFrom rest
    else hpFrom rest

/-- re.search(r'(\d+)\s*hp', s) followed by int(group(1)). -/
def pyHpSearch (s : String) : Option Nat := hpFrom s.data

/-- The characters after the first colon (str.split(':', 1)[1], only used
under a `':' in full_text` guard). -/
def afterFirstColon : List Char → List Char
  | [] => []
  | ':' :: t => t
  | _ :: t => afterFirstColon t

/-- The engine resolution of line 313: the data-trim-name attribute when the
trim-name span is truthy and the attribute is a nonempty string, else
get_clean_text of the span (None when the span is absent or falsy). -/
def engineOf (panel_hdr : Html) : Option String :=
  match panel_hdr.findFirst isTrimNameSpan with
  | some tns =>
    match tns.attr "data-trim-name" with
    | some v => if truthy tns && !v.data.isEmpty then some v else get_clean_text (some tns)
    | none => get_clean_text (some tns)
  | none => none

/-- The hp resolution of lines 314-316: the first truthy power span whose
text matches the hp pattern. -/
def hpOf (panel_hdr : Html) : Option Nat :=
  match panel_hdr.findFirst powerSpanPred with
  | some ps => if truthy ps then pyHpSearch (rawText ps) else none
  | none => none

/-- The colon-split label dispatch of lines 328-333 (the elif chain over
the lower-cased parameter name; unmatched labels leave the record as is). -/
def descUpdate (ti : TrimRecord) (param_name value : String) : TrimRecord :=
  if strContains param_name "generation" then { ti with generation := some value }
  else if strContains param_name "production" then { ti with production := some value }
  else if strContains param_name "center bore" then { ti with centerbore := some value }
  else if strContains param_name "bolt pattern" then { ti with bolt_pattern := some value }
  else if strContains param_name "wheel fasteners" then { ti with wheel_fasterns := some value }
  else if strContains param_name "thread size" then { ti with thread_size := some value }
  else ti

/-- The torque assignment of lines 322-323: the imperial span cleaned,
lower-cased, with the unit dot-operator normalized. -/
def torqueUpdate (ti : TrimRecord) (ts : Html) : TrimRecord :=
  { ti with wheel_tightening_torque := some (pyReplace (pyLower (cleanNodes [ts])) "lbf⋅ft" "lbf ft") }

/-- The item-loop body once the lower-cased parameter name is known (lines
321-333): the torque special case takes the truthy imperial span (the
walrus if), every other label goes through the colon split and the label
dispatch; in the torque branch the source `continue`s before the colon
path. -/
def paramStep (ti : TrimRecord) (item : Html) (param_name : String) : TrimRecord :=
  if strContains param_name "wheel tightening torque" then
    match item.findFirst isImperialSpan with
    | some ts => if truthy ts then torqueUpdate ti ts else ti
    | none => ti
  else
    let full_text := collapseWs (stripConcat item)
    if strContains full_text ":" then
      descUpdate ti param_name ⟨pystrip (afterFirstColon full_text.data)⟩
    else ti

/-- One iteration of the descriptive-item loop (lines 317-333). The guard
`if not param_name_span: continue` (line 319) skips an item whose
parameter-name span is absent or falsy (a contentless tag, by bs4
Tag.__len__ truthiness); past the guard the span is truthy, so
get_clean_text returns its cleaned text (`some (cleanNodes [pns])` by
definition) and the `.lower()` call of line 320 is safe — the loop body is
total. -/
def applyParamItem (ti : TrimRecord) (item : Html) : TrimRecord :=
  match item.findFirst isParamNameSpan with
  | none => ti
  | some pns =>
    if truthy pns then paramStep ti item (pyLower (cleanNodes [pns]))
    else ti

/-- The descriptive-item loop folded over all items of a panel. -/
def applyItems (ti : TrimRecord) : List Html → TrimRecord
  | [] => ti
  | i :: rest => applyItems (applyParamItem ti i) rest

/-- One iteration of the table-row loop (lines 336-346): rows with fewer
than six td descendants are dropped; otherwise the booleans come from the
"stock" row class and the truthiness of the snowflake find, and the six
cells are split (cells 3-5 imperial and number-formatted). -/
def parseRow (row : Html) : Option TireRow :=
  match row.findAll isTd with
  | c0 :: c1 :: c2 :: c3 :: c4 :: c5 :: _ =>
    let p0 := get_staggered_data c0 false
    let p1 := get_staggered_data c1 false
    let p2 := get_staggered_data c2 false
    let p3 := get_staggered_data c3 true
    let p4 := get_staggered_data c4 true
    let p5 := get_staggered_data c5 true
    some
      { original_equipment := (Html.classList row).contains "stock"
        recommended_for_winter := optTruthy (row.findFirst isSnowflakeIcon)
        front_size := p0.1, rear_size := p0.2
        front_rim := p1.1, rear_rim := p1.2
        front_offset := p2.1, rear_offset := p2.2
        front_backspacing := format_number p3.1, rear_backspacing := format_number p3.2
        front_tire_weight := format_number p4.1, rear_tire_weight := format_number p4.2
        front_max_psi := format_number p5.1, rear_max_psi := format_number p5.2 }
  | _ => none

/-- The table step of lines 334-336: `if not table or not table.find('tbody'):
continue` (None and falsy-empty both skip), then the rows of the refound
first tbody. `none` means the panel contributes no record. -/
def panelTires (panel : Html) : Option (List TireRow) :=
  match panel.findFirst isWsTable with
  | none => none
  | some table =>
    if !truthy table then none
    else
      match table.findFirst isTbody with
      | none => none
      | some tb =>
        if !truthy tb then none
        else some ((tb.findAll isTr).filterMap parseRow)

/-- The trim_info dict as first populated (line 310 plus the engine and hp
assignments of lines 313-316, which precede the item loop). -/
def initTrim (source_html : String) (mk md : Option String) (yr : Int) (panel_hdr : Html) :
    TrimRecord :=
  ⟨source_html, mk, md, yr, engineOf panel_hdr, hpOf panel_hdr,
   none, none, none, none, none, none, none, []⟩

/-- One iteration of the panel loop (lines 308-347): the USA-market class is
a hard filter; a panel without a div.panel-hdr raises (AttributeError on
None.find); a panel whose table step skips contributes no record; otherwise
the finished record is appended. -/
def parsePanel (source_html : String) (mk md : Option String) (yr : Int) (panel : Html) :
    Except String (Option TrimRecord) :=
  if !hasClass panel "region-trim-usdm" then .ok none
  else
    match panel.findFirst isPanelHdr with
    | none => .error "AttributeError: NoneType object has no attribute find"
    | some panel_hdr =>
      match panelTires panel with
      | none => .ok none
      | some rows =>
        .ok (some { applyItems (initTrim source_html mk md yr panel_hdr)
                      (panel.findAll isParamItem) with
                    tires := rows })

/-- The panel loop over all panels, first error propagating (a raised
exception aborts the whole parse, as in Python). -/
def parsePanels (source_html : String) (mk md : Option String) (yr : Int) :
    List Html → Except String (List TrimRecord)
  | [] => .ok []
  | p :: ps =>
    match parsePanel source_html mk md yr p with
    | .error e => .error e
    | .ok none => parsePanels source_html mk md yr ps
    | .ok (some r) =>
      match parsePanels source_html mk md yr ps with
      | .error e => .error e
      | .ok rs => .ok (r :: rs)

/-- The source_html of lines 305-306: `str(trims_list_div) if
trims_list_div else ""` — the conditional tests Python truthiness of the
find result, so an absent container AND a present-but-contentless (falsy)
one both yield the empty string; only a truthy container is serialized. -/
def sourceHtmlOf (soup : Html) : String :=
  match soup.findFirst isTrimsListDiv with
  | some d => if truthy d then serialize d else ""
  | none => ""

/-- Models parse_vehicle_data (lines 299-348), the Extractor: a missing or
falsy title h1 yields the empty record list; a missing data-year attribute
raises TypeError in int(), a non-integer one raises ValueError (both
surfaced as `.error`); otherwise the USDM panels are converted. -/
def parse_vehicle_data (soup : Html) : Except String (List TrimRecord) :=
  match soup.findFirst isTitleH1 with
  | none => .ok []
  | some h1 =>
    if !truthy h1 then .ok []
    else
      match h1.attr "data-year" with
      | none => .error "TypeError: int() argument must be a string, not NoneType"
      | some ys =>
        match pyIntOfString ys with
        | none => .error ("ValueError: invalid literal for int() with base 10: " ++ ys)
        | some yr =>
          parsePanels (sourceHtmlOf soup) (h1.attr "data-make-name") (h1.attr "data-model-name")
            yr (soup.findAll isTrimPanel)

/-! ### The Fetch Controller (scrape_vehicle_page, lines 417-471). -/

/-- Retry-loop configuration (lines 32-33). -/
def MAX_RETRIES : Nat := 5

/-- Initial backoff delay in seconds (line 33). -/
def INITIAL_BACKOFF_DELAY_SECONDS : Nat := 30

/-- The backoff of lines 432/456/464 for a zero-based attempt index:
`INITIAL_BACKOFF_DELAY_SECONDS * (2 ** attempt)` seconds. -/
def backoffDelay (attempt : Nat) : Nat := INITIAL_BACKOFF_DELAY_SECONDS * 2 ^ attempt

/-- The renderer's behaviour on one attempt: a navigation/selector timeout
(PlaywrightTimeoutError), some other exception with its message, or a
rendered DOM together with the post-navigation URL. -/
inductive NavResult where
  | navTimeout
  | navError (msg : String)
  | navOk (dom : Html) (url : String)

/-- Observable outcome of one scrape_vehicle_page call: the data passed to
save_vehicle_data if it was called (the StoredFile write), the backoff
sleeps performed in order, whether the loop ended on the success return of
line 450, and how many attempts were entered. -/
structure ScrapeResult where
  savedData : Option (List TrimRecord)
  sleeps : List Nat
  succeeded : Bool
  attempts : Nat
deriving DecidableEq

/-- Prepends a backoff sleep and counts the current attempt on top of the
rest of the loop's outcome. -/
def sleepThen (d : Nat) (r : ScrapeResult) : ScrapeResult :=
  ⟨r.savedData, d :: r.sleeps, r.succeeded, r.attempts + 1⟩

/-- Translates the body of the retry loop of scrape_vehicle_page
(lines 421-469), by remaining fuel (`MAX_RETRIES - attempt`; the source's
`for attempt in range(MAX_RETRIES)` never exhausts fuel early):
- a timeout at the last attempt breaks (terminal failure), earlier ones
  sleep `backoffDelay attempt` and re-enter;
- any other exception is retried the same way when its message contains
  "detection" (line 460), otherwise it breaks immediately with no sleep;
- on a rendered page the detection check runs first (its True branch —
  unreachable, since check_for_detection always returns False — would raise
  at the last attempt and otherwise sleep-and-retry); then the page is
  parsed: a parse exception joins the generic exception handler, an
  extraction result is saved only when non-empty, and the loop returns. -/
def retryStep (env : Nat → NavResult) : Nat → Nat → ScrapeResult
  | _, 0 => ⟨none, [], false, 0⟩
  | attempt, fuel + 1 =>
    match env attempt with
    | .navTimeout =>
      if attempt + 1 == MAX_RETRIES then ⟨none, [], false, 1⟩
      else sleepThen (backoffDelay attempt) (retryStep env (attempt + 1) fuel)
    | .navError msg =>
      if strContains (pyLower msg) "detection" then
        if attempt + 1 == MAX_RETRIES then ⟨none, [], false, 1⟩
        else sleepThen (backoffDelay attempt) (retryStep env (attempt + 1) fuel)
      else ⟨none, [], false, 1⟩
    | .navOk dom url =>
      if check_for_detection (serialize dom) url then
        if attempt + 1 == MAX_RETRIES then ⟨none, [], false, 1⟩
        else sleepThen (backoffDelay attempt) (retryStep env (attempt + 1) fuel)
      else
        match parse_vehicle_data dom with
        | .error msg =>
          if strContains (pyLower msg) "detection" then
            if attempt + 1 == MAX_RETRIES then ⟨none, [], false, 1⟩
            else sleepThen (backoffDelay attempt) (retryStep env (attempt + 1) fuel)
          else ⟨none, [], false, 1⟩
        | .ok data =>
          if data.isEmpty then ⟨none, [], true, 1⟩ else ⟨some data, [], true, 1⟩

/-- Models scrape_vehicle_page for one target, as a function of the
environment giving each attempt's renderer outcome. -/
def scrape_vehicle_page (env : Nat → NavResult) : ScrapeResult :=
  retryStep env 0 MAX_RETRIES

/-! ### The worker flow for one Task (process_make_year, lines 473-572). -/

/-- Outcome of the Discovery step for a (make, year) pair: a model list, a
PlaywrightTimeoutError, or another exception. -/
inductive DiscoveryResult where
  | models (ms : List String)
  | discTimeout
  | discError (msg : String)

/-- Observable outcome of one dequeued Task: which models reached
scrape_vehicle_page (the per-file existence check filters the rest), and
whether the CompletionMarker (.done) was written. -/
structure TaskTrace where
  scrapedModels : List String
  markerWritten : Bool
deriving DecidableEq

/-- The StoredFile path of lines 531-535 and 350-360:
results/{make}/{year}/{make}__{model}__{year}.json with the make lowered
and the model lowered and slash-sanitized. -/
def storedFilePath (make model : String) (year : Int) : String :=
  "results/" ++ pyLower make ++ "/" ++ intStr year ++ "/" ++ pyLower make ++ "__"
    ++ pyReplace (pyLower model) "/" "_" ++ "__" ++ intStr year ++ ".json"

/-- Translates the per-Task body of process_make_year (lines 481-554): a
Discovery timeout or exception propagates to the handlers of lines 551-554,
which log and leave the try block — skipping both the model loop and the
marker write of lines 547-548; on success every model whose StoredFile is
absent is scraped and then the marker is written. (The model assumes the
marker touch itself succeeds, i.e. the results directory exists.) -/
def process_make_year_task (disc : DiscoveryResult) (fileExists : String → Bool)
    (make : String) (year : Int) : TaskTrace :=
  match disc with
  | .discTimeout => ⟨[], false⟩
  | .discError _ => ⟨[], false⟩
  | .models ms => ⟨ms.filter (fun m => !fileExists (storedFilePath make m year)), true⟩

/-- A rendered page with no title element: extraction yields the empty
record list. -/
def c1dom : Html := .elem "html" [] [.text "no data"]

/-- An environment whose first attempt succeeds with that page. -/
def c1env : Nat → NavResult :=
  fun _ => .navOk c1dom "https://www.wheel-size.com/size/audi/a4/2024/"

/-- A plain one-text table cell. -/
def mkCell (s : String) : Html := .elem "td" [] [.text s]

/-- A USDM trim panel whose parameter list declares "Wheel Fasteners: Lug
nuts M12 x 1.5". -/
def c4panel : Html :=
  .elem "div" [("id", "trim-1"), ("class", "panel region-trim-usdm")]
    [.elem "div" [("class", "panel-hdr")]
      [.elem "span" [("class", "panel-hdr-trim-name"), ("data-trim-name", "2.0 TFSI")]
        [.text "2.0 TFSI"],
       .elem "span" [] [.text "252 hp"]],
     .elem "li" [("class", "element-parameter")]
      [.elem "span" [("class", "parameter-name")] [.text "Wheel Fasteners"],
       .text ": Lug nuts M12 x 1.5"],
     .elem "table" [("class", "table-ws")]
      [.elem "tbody" [] [.elem "tr" [("class", "stock")]
        [mkCell "225/45R17", mkCell "7.5Jx17 ET45", mkCell "45",
         mkCell "5.2", mkCell "22", mkCell "51"]]]]

/-- A full page around that panel. -/
def c4page : Html :=
  .elem "html" []
    [.elem "h1" [("id", "title-header"), ("data-make-name", "Audi"),
        ("data-model-name", "A4"), ("data-year", "2024")] [.text "Audi A4 2024"],
     .elem "div" [("class", "trims-list")] [c4panel]]

/-- A concrete non-staggered cell. -/
def c5cell : Html := .elem "td" [] [.text "235/45 R18"]

/-- A concrete page whose truthy title h1 declares a non-integer data-year. -/
def c9page : Html :=
  .elem "html" []
    [.elem "h1" [("id", "title-header"), ("data-year", "twenty24")] [.text "heading"]]

/-- A USDM trim panel for the C10 witness page. -/
def c10panel (idv tn : String) : Html :=
  .elem "div" [("id", idv), ("class", "panel region-trim-usdm")]
    [.elem "div" [("class", "panel-hdr")]
      [.elem "span" [("class", "panel-hdr-trim-name"), ("data-trim-name", tn)] [.text tn]],
     .elem "table" [("class", "table-ws")]
      [.elem "tbody" [] [.elem "tr" []
        [mkCell "205/55R16", mkCell "6.5Jx16", mkCell "42",
         mkCell "6.0", mkCell "19", mkCell "44"]]]]

/-- A two-panel page: its two records must share one html_output. -/
def c10page : Html :=
  .elem "html" []
    [.elem "h1" [("id", "title-header"), ("data-year", "2019")] [.text "heading"],
     .elem "div" [("class", "trims-list")] [c10panel "trim-1" "1.5 dCi", c10panel "trim-2" "2.0"]]

/-- A present-but-contentless (falsy) trims-list container. -/
def c10emptydiv : Html := .elem "div" [("class", "trims-list")] []

/-- A page whose trims-list container is present but empty, with a
qualifying USDM panel elsewhere in the page (the panel loop of line 308
searches the whole soup, not the container, so the panel still yields a
record). -/
def c10badpage : Html :=
  .elem "html" []
    [.elem "h1" [("id", "title-header"), ("data-year", "2019")] [.text "heading"],
     c10emptydiv,
     c10panel "trim-1" "1.5 dCi"]

/-- The ok-payload of a parse, for stating the witness. -/
def okRecords : Except String (List TrimRecord) → List TrimRecord
  | .ok rs => rs
  | .error _ => []

/-- Shared fact: every branch of check_for_detection returns False, so the
check never reports detection. -/
theorem check_for_detection_false (content url : String) :
    check_for_detection content url = false := by
  simp only [check_for_detection, ite_self]

/-! ### Helper lemmas on the retry loop. -/

/-- A successful attempt whose extraction is empty ends the loop at once:
success, no sleep, and no save_vehicle_data call. -/
theorem retryStep_ok_empty (env : Nat → NavResult) (a fuel : Nat) (dom : Html) (url : String)
    (ha : env a = .navOk dom url) (hp : parse_vehicle_data dom = .ok []) :
    retryStep env a (fuel + 1) = ⟨none, [], true, 1⟩ := by
  conv_lhs => unfold retryStep
  rw [ha]
  simp [check_for_detection_false, hp]

/-- A timeout before the last attempt sleeps the exponential delay and
re-enters the loop. -/
theorem retryStep_timeout_sleep (env : Nat → NavResult) (a fuel : Nat)
    (hlt : a + 1 < MAX_RETRIES) (ha : env a = .navTimeout) :
    retryStep env a (fuel + 1) = sleepThen (backoffDelay a) (retryStep env (a + 1) fuel) := by
  have hne : (a + 1 == MAX_RETRIES) = false := by
    simp only [beq_eq_false_iff_ne, ne_eq]
    exact Nat.ne_of_lt hlt
  conv_lhs => unfold retryStep
  rw [ha]
  simp only [hne, Bool.false_eq_true, if_false]

/-- A timeout at the last attempt is terminal: no sleep, no save, failure. -/
theorem retryStep_timeout_last (env : Nat → NavResult) (fuel : Nat)
    (ha : env (MAX_RETRIES - 1) = .navTimeout) :
    retryStep env (MAX_RETRIES - 1) (fuel + 1) = ⟨none, [], false, 1⟩ := by
  rw [show MAX_RETRIES - 1 = 4 from rfl] at ha ⊢
  conv_lhs => unfold retryStep
  rw [ha]
  simp [MAX_RETRIES]

/-! ### Claim C1. -/

/-- Claim C1 counterexample: a fetch that succeeds with an extraction
yielding the empty record sequence does NOT write the StoredFile — the
source (line 445) calls save_vehicle_data only on a non-empty result, so
the scrape ends as a success with `savedData = none`. -/
theorem claim_C1_counterexample :
    parse_vehicle_data c1dom = .ok [] ∧
    scrape_vehicle_page c1env = ⟨none, [], true, 1⟩ :=
  ⟨rfl, rfl⟩

/-- Claim C1 (amended): for every Target whose fetch attempt succeeds but
whose extraction yields an empty record sequence, the Store does NOT write
the StoredFile; the attempt still terminates the retry loop as a success
(one attempt, no sleeps), so within the run the target is not retried, and
only the Task-level CompletionMarker prevents the pair from being revisited
on a later run — the individual target stays eligible until then. -/
theorem claim_C1_amended (env : Nat → NavResult) (dom : Html) (url : String)
    (henv : env 0 = .navOk dom url) (hparse : parse_vehicle_data dom = .ok []) :
    scrape_vehicle_page env = ⟨none, [], true, 1⟩ :=
  retryStep_ok_empty env 0 4 dom url henv hparse

/-- Witness for claim C1 (amended) at the concrete empty page. -/
theorem claim_C1_amended_witness :
    scrape_vehicle_page c1env = ⟨none, [], true, 1⟩ :=
  claim_C1_amended c1env c1dom "https://www.wheel-size.com/size/audi/a4/2024/" rfl rfl

/-! ### Claim C2. -/

/-- Claim C2 counterexample: a Discovery timeout for concrete ("acura",
2024) aborts the Task with no models processed and NO CompletionMarker —
the exception of line 528 propagates to the handler of line 551, skipping
the marker write of lines 547-548, so the pair IS revisited on a later
run (the claim asserts the marker is still written). -/
theorem claim_C2_counterexample :
    process_make_year_task .discTimeout (fun _ => false) "acura" 2024 = ⟨[], false⟩ :=
  rfl

/-- Claim C2 (amended): if the Discovery step fails with a timeout or an
exception, the Task is abandoned: no model is scraped and the
CompletionMarker is NOT written, so the (make, year) pair remains eligible
and is re-attempted on a later run. -/
theorem claim_C2_amended :
    (∀ fe make year, process_make_year_task .discTimeout fe make year = ⟨[], false⟩) ∧
    (∀ msg fe make year, process_make_year_task (.discError msg) fe make year = ⟨[], false⟩) :=
  ⟨fun _ _ _ => rfl, fun _ _ _ _ => rfl⟩

/-! ### Claim C3. -/

/-- Claim C3: the claim is what the code intends (its docstring, its
callers' log messages and the whole retry plumbing for detection), but the
code is wrong: check_for_detection returns False on every path — also when
a bot-challenge phrase is present in the content or the URL matches the
challenge/verification patterns — so a detection is never reported and the
Retryable classification for detection is unreachable. -/
theorem claim_C3_detection_never_reported :
    (∀ content url, check_for_detection content url = false) ∧
    check_for_detection "please verify you are human"
      "https://www.wheel-size.com/challenge" = false :=
  ⟨check_for_detection_false, check_for_detection_false _ _⟩

/-! ### Claim C4. -/

/-- Claim C4: the claim follows the spec's declared field set
(wheel_fasteners), but the source (line 332) stores the value under the
misspelled dict key 'wheel_fasterns'; on a page declaring a wheel-fasteners
item the produced record carries the value in wheel_fasterns and its JSON
key set contains "wheel_fasterns" and never "wheel_fasteners". -/
theorem claim_C4_misspelled_key :
    (parse_vehicle_data c4page).map (List.map (fun r =>
        (r.wheel_fasterns, (recordKeys r).contains "wheel_fasteners",
         (recordKeys r).contains "wheel_fasterns")))
      = .ok [(some "Lug nuts M12 x 1.5", false, true)] :=
  rfl

/-! ### Claim C5. -/

/-- Claim C5: get_staggered_data applies exactly the spec's two-tier rule.
First conjunct: the source translation agrees with the spec-worded
split_staggered on every cell and hint. Second conjunct: when no (truthy)
rear sub-fragment exists in the narrowed target and the line-break split of
the raw fragment does not yield two parts, front and rear are the same
clean_text(target) — so every non-staggered cell yields front == rear. -/
theorem claim_C5_two_tier_split :
    (∀ cell imp, get_staggered_data cell imp = split_staggered cell imp) ∧
    (∀ cell imp, optTruthy ((narrowTarget cell imp).findFirst isRearSpan) = false →
       splitBrList (childrenList (narrowTarget cell imp)) = none →
       (get_staggered_data cell imp).1 = (get_staggered_data cell imp).2 ∧
       (get_staggered_data cell imp).1 = get_clean_text (some (narrowTarget cell imp))) := by
  constructor
  · intro cell imp
    unfold get_staggered_data split_staggered
    cases hf : (narrowTarget cell imp).findFirst isRearSpan with
    | none => simp [optTruthy, hf]
    | some rs =>
      cases ht : truthy rs with
      | false => simp [optTruthy, hf, ht]
      | true => simp [optTruthy, hf, ht]
  · intro cell imp h1 h2
    refine ⟨?_, ?_⟩ <;> simp [get_staggered_data, lineBreakSplit, h1, h2]

/-- Witness for claim C5 at the concrete non-staggered cell. -/
theorem claim_C5_witness :
    (get_staggered_data c5cell false).1 = (get_staggered_data c5cell false).2 :=
  (claim_C5_two_tier_split.2 c5cell false rfl rfl).1

/-! ### Claim C6. -/

/-- Claim C6: canonicalize_number (the source's format_number) maps null to
null, a value float() rejects to itself, an integral parsed value to its
integer rendering, a non-integral one to itself; and the three concrete
examples evaluate as the spec states. -/
theorem claim_C6_canonicalize_number :
    format_number none = none ∧
    (∀ s, pyFloatOfString s = none → format_number (some s) = some s) ∧
    (∀ s num den, pyFloatOfString s = some (num, den) → num % (Int.ofNat den) = 0 →
       format_number (some s) = some (intStr (num / Int.ofNat den))) ∧
    (∀ s num den, pyFloatOfString s = some (num, den) → ¬num % (Int.ofNat den) = 0 →
       format_number (some s) = some s) ∧
    format_number (some "25.0") = some "25" ∧
    format_number (some "22.4") = some "22.4" ∧
    format_number (some "n/a") = some "n/a" := by
  refine ⟨rfl, ?_, ?_, ?_, rfl, rfl, rfl⟩
  · intro s h0
    simp [format_number, h0]
  · intro s num den h0 hz
    simp only [format_number, h0]
    rw [if_pos hz]
  · intro s num den h0 hz
    simp only [format_number, h0]
    rw [if_neg hz]

/-- Witness for claim C6 on a parse-failing input. -/
theorem claim_C6_witness : format_number (some "abc") = some "abc" :=
  claim_C6_canonicalize_number.2.1 "abc" rfl

/-! ### Claim C7. -/

/-- Claim C7: when every attempt of a target times out, the Fetch
Controller makes exactly MAX_RETRIES = 5 attempts, sleeps
30 * 2^(attempt-1) seconds after each of the first four (30, 60, 120, 240),
then ends in terminal failure with no StoredFile write; the single-step
shape (sleep backoffDelay a, re-enter at a+1) is retryStep_timeout_sleep. -/
theorem claim_C7_retry_schedule (env : Nat → NavResult)
    (h : ∀ k, k < MAX_RETRIES → env k = .navTimeout) :
    scrape_vehicle_page env = ⟨none, [30, 60, 120, 240], false, 5⟩ := by
  have e4 := retryStep_timeout_sleep env 0 4 (by decide) (h 0 (by decide))
  have e3 := retryStep_timeout_sleep env 1 3 (by decide) (h 1 (by decide))
  have e2 := retryStep_timeout_sleep env 2 2 (by decide) (h 2 (by decide))
  have e1 := retryStep_timeout_sleep env 3 1 (by decide) (h 3 (by decide))
  have e0 := retryStep_timeout_last env 0 (h 4 (by decide))
  rw [show MAX_RETRIES - 1 = 4 from rfl] at e0
  norm_num at e4 e3 e2 e1
  show retryStep env 0 5 = _
  rw [e4, e3, e2, e1, e0]
  rfl

/-- Witness for claim C7: the all-timeout environment. -/
theorem claim_C7_witness :
    scrape_vehicle_page (fun _ => NavResult.navTimeout) = ⟨none, [30, 60, 120, 240], false, 5⟩ :=
  claim_C7_retry_schedule (fun _ => .navTimeout) (fun _ _ => rfl)

/-! ### Claim C8. -/

/-- Claim C8: at any attempt and remaining fuel, an exception other than a
timeout and other than a detection-classified one (the source classifies by
"detection" occurring in the lowered message) terminates the retry loop at
once: one attempt consumed, no backoff sleep, no save, terminal failure.
This covers both a renderer exception and an extraction (parse) exception. -/
theorem claim_C8_fatal_exception :
    (∀ env a fuel msg, env a = .navError msg →
       strContains (pyLower msg) "detection" = false →
       retryStep env a (fuel + 1) = ⟨none, [], false, 1⟩) ∧
    (∀ env a fuel dom url msg, env a = .navOk dom url →
       parse_vehicle_data dom = .error msg →
       strContains (pyLower msg) "detection" = false →
       retryStep env a (fuel + 1) = ⟨none, [], false, 1⟩) := by
  constructor
  · intro env a fuel msg ha hdet
    conv_lhs => unfold retryStep
    rw [ha]
    simp [hdet]
  · intro env a fuel dom url msg ha hp hdet
    conv_lhs => unfold retryStep
    rw [ha]
    simp [check_for_detection_false, hp, hdet]

/-- Witness for claim C8: a concrete connection-reset error on the first
attempt of a full-fuel loop. -/
theorem claim_C8_witness :
    retryStep (fun _ => NavResult.navError "ECONNRESET by peer") 0 (4 + 1)
      = ⟨none, [], false, 1⟩ :=
  claim_C8_fatal_exception.1 (fun _ => .navError "ECONNRESET by peer") 0 4
    "ECONNRESET by peer" rfl rfl

/-! ### Claim C9. -/

/-- Claim C9: extract is not total. When the title h1 is absent the parse
returns the empty sequence; when it is present (and truthy — the `if not
h1` guard of line 303 also treats a contentless tag as absent, by bs4's
len-based Tag truthiness) but its data-year attribute is missing or not a
decimal integer string, int() raises and the parse surfaces the exception
instead of returning any record sequence. -/
theorem claim_C9_extract_partiality :
    (∀ soup, soup.findFirst isTitleH1 = none → parse_vehicle_data soup = .ok []) ∧
    (∀ soup h1, soup.findFirst isTitleH1 = some h1 → truthy h1 = true →
       h1.attr "data-year" = none →
       parse_vehicle_data soup =
         .error "TypeError: int() argument must be a string, not NoneType") ∧
    (∀ soup h1 ys, soup.findFirst isTitleH1 = some h1 → truthy h1 = true →
       h1.attr "data-year" = some ys → pyIntOfString ys = none →
       parse_vehicle_data soup =
         .error ("ValueError: invalid literal for int() with base 10: " ++ ys)) := by
  refine ⟨?_, ?_, ?_⟩
  · intro soup hf
    simp [parse_vehicle_data, hf]
  · intro soup h1 hf ht hy
    simp [parse_vehicle_data, hf, ht, hy]
  · intro soup h1 ys hf ht hy hp
    simp [parse_vehicle_data, hf, ht, hy, hp]

/-- Witness for claim C9 at the concrete page. -/
theorem claim_C9_witness :
    parse_vehicle_data c9page =
      .error ("ValueError: invalid literal for int() with base 10: " ++ "twenty24") :=
  claim_C9_extract_partiality.2.2 c9page
    (.elem "h1" [("id", "title-header"), ("data-year", "twenty24")] [.text "heading"])
    "twenty24" rfl rfl rfl rfl

/-! ### Claim C10. -/

/-- The label dispatch never changes html_output. -/
theorem descUpdate_html_output (ti : TrimRecord) (pn v : String) :
    (descUpdate ti pn v).html_output = ti.html_output := by
  unfold descUpdate
  repeat' split
  all_goals rfl

/-- The torque assignment never changes html_output. -/
theorem torqueUpdate_html_output (ti : TrimRecord) (ts : Html) :
    (torqueUpdate ti ts).html_output = ti.html_output := rfl

/-- The loop body never changes html_output. -/
theorem paramStep_html_output (ti : TrimRecord) (item : Html) (pn : String) :
    (paramStep ti item pn).html_output = ti.html_output := by
  unfold paramStep
  repeat' split
  all_goals simp [apply_ite TrimRecord.html_output, descUpdate_html_output,
    torqueUpdate_html_output]

/-- The item loop never changes html_output: every branch of applyParamItem
either keeps the record or updates a different field. -/
theorem applyParamItem_html_output (ti : TrimRecord) (item : Html) :
    (applyParamItem ti item).html_output = ti.html_output := by
  unfold applyParamItem
  split
  · rfl
  · simp [apply_ite TrimRecord.html_output, paramStep_html_output]

/-- The item fold preserves html_output. -/
theorem applyItems_html_output :
    ∀ (items : List Html) (ti : TrimRecord),
      (applyItems ti items).html_output = ti.html_output := by
  intro items
  induction items with
  | nil => intro ti; rfl
  | cons i rest ih =>
    intro ti
    rw [show applyItems ti (i :: rest) = applyItems (applyParamItem ti i) rest from rfl]
    rw [ih (applyParamItem ti i), applyParamItem_html_output]

/-- A record produced from one panel carries the page-level source_html. -/
theorem parsePanel_html_output (sh : String) (mk md : Option String) (yr : Int) (p : Html)
    (r : TrimRecord) (h : parsePanel sh mk md yr p = .ok (some r)) :
    r.html_output = sh := by
  unfold parsePanel at h
  split at h
  · simp at h
  · split at h
    · simp at h
    · rename_i panel_hdr hhdr
      split at h
      · simp at h
      · simp only [Except.ok.injEq, Option.some.injEq] at h
        subst h
        have hti := applyItems_html_output (p.findAll isParamItem)
          (initTrim sh mk md yr panel_hdr)
        simpa [initTrim] using hti

/-- Every record produced by the panel loop carries the page-level
source_html. -/
theorem parsePanels_html_output (sh : String) (mk md : Option String) (yr : Int) :
    ∀ (panels : List Html) (records : List TrimRecord),
      parsePanels sh mk md yr panels = .ok records →
      ∀ r ∈ records, r.html_output = sh := by
  intro panels
  induction panels with
  | nil =>
    intro records h r hr
    simp [parsePanels] at h
    subst h
    simp at hr
  | cons p ps ih =>
    intro records h r hr
    unfold parsePanels at h
    split at h
    · simp at h
    · exact ih records h r hr
    · rename_i r0 hp0
      split at h
      · simp at h
      · rename_i rs hps
        simp only [Except.ok.injEq] at h
        subst h
        rcases List.mem_cons.mp hr with hr0 | hrs
        · rw [hr0]
          exact parsePanel_html_output sh mk md yr p r0 hp0
        · exact ih rs hps r hrs

/-- Claim C10 counterexample: on a page whose trims-list container is
present but contentless, line 306's truthiness conditional takes the else
branch, so the produced record carries html_output = "" even though the
container's serialized markup is a nonempty string — refuting the claim,
which allows "" only when the container is absent. -/
theorem claim_C10_counterexample :
    c10badpage.findFirst isTrimsListDiv = some c10emptydiv ∧
    (parse_vehicle_data c10badpage).map (List.map TrimRecord.html_output) = .ok [""] ∧
    "" ≠ serialize c10emptydiv :=
  ⟨rfl, rfl, by decide⟩

/-- Claim C10 (amended): every TrimRecord produced by extract carries an
html_output field equal to the serialized markup of the page's trims-list
container when that container is present and truthy (has contents), and
the empty string when it is absent or contentless — the truthiness test of
line 306; in particular the value is identical across all records
extracted from the same page. -/
theorem claim_C10_html_output_field (soup : Html) (records : List TrimRecord)
    (h : parse_vehicle_data soup = .ok records) :
    ∀ r ∈ records, r.html_output = sourceHtmlOf soup := by
  unfold parse_vehicle_data at h
  split at h
  · simp at h
    subst h
    simp
  · rename_i h1 hf
    split at h
    · simp at h
      subst h
      simp
    · split at h
      · simp at h
      · rename_i ys hy
        split at h
        · simp at h
        · rename_i yr hp
          exact parsePanels_html_output (sourceHtmlOf soup) (Html.attr h1 "data-make-name")
            (Html.attr h1 "data-model-name") yr (soup.findAll isTrimPanel) records h

/-- Witness for claim C10 at the concrete two-panel page: both extracted
records carry the page's serialized trims-list markup. -/
theorem claim_C10_witness :
    (okRecords (parse_vehicle_data c10page)).all
      (fun r => r.html_output == sourceHtmlOf c10page) = true := by
  have h := claim_C10_html_output_field c10page (okRecords (parse_vehicle_data c10page)) rfl
  rw [List.all_eq_true]
  intro r hr
  exact beq_iff_eq.mpr (h r hr)
